import Mathlib

/-!
Verification of the Detik news-scraper extraction pipeline
(`newswatch/scrapers/detik.py`).

The HTML page is modelled as a node tree (`Node`); the BeautifulSoup
operations used by the scraper (`select`, `select_one`, `find_all`,
`get_text`, attribute lookup, element extraction) are embedded as pure
functions on that tree.  CSS selectors are represented structurally
(`SSel`, descendant chains, comma groups) covering exactly the selector
features the scraper uses: tag names, classes, exact attribute values,
attribute-value prefixes and attribute presence.

Python string operations are re-implemented on character lists so that
all definitions evaluate by kernel reduction (`String.trim` and friends
do not reduce).
-/

/-- Whitespace characters stripped by Python `str.strip()`. -/
def pyWs (c : Char) : Bool :=
  c = ' ' || c = '\t' || c = '\n' || c = '\x0d' || c = '\x0b' || c = '\x0c'

/-- Strip leading and trailing whitespace from a character list. -/
def trimL (l : List Char) : List Char :=
  ((l.dropWhile pyWs).reverse.dropWhile pyWs).reverse

/-- Python `str.strip()`. -/
def trimS (s : String) : String :=
  ⟨trimL s.data⟩

/-- Does `pat` occur as a leading segment of `l`? -/
def isPrefixL : List Char → List Char → Bool
  | [], _ => true
  | _ :: _, [] => false
  | p :: ps, c :: cs => p = c && isPrefixL ps cs

/-- Does `pat` occur as a contiguous segment of `l`?  (Python `in` on strings.) -/
def containsSubL (pat : List Char) : List Char → Bool
  | [] => isPrefixL pat []
  | c :: cs => isPrefixL pat (c :: cs) || containsSubL pat cs

/-- Python `sub in s` for strings. -/
def containsSub (sub s : String) : Bool :=
  containsSubL sub.data s.data

/-- Fuelled worker for `splitOnL`; the fuel is an upper bound on the number
of characters still to be consumed, so `length + 1` is always enough for a
non-empty pattern. -/
def splitOnAux (pat : List Char) : Nat → List Char → List Char → List (List Char)
  | 0, _, acc => [acc.reverse]
  | _ + 1, [], acc => [acc.reverse]
  | fuel + 1, c :: cs, acc =>
    if isPrefixL pat (c :: cs) then
      acc.reverse :: splitOnAux pat fuel (List.drop pat.length (c :: cs)) []
    else
      splitOnAux pat fuel cs (c :: acc)

/-- Python `s.split(sep)` for a non-empty separator `sep`. -/
def splitOnS (sep s : String) : List String :=
  (splitOnAux sep.data (s.data.length + 1) s.data []).map (fun l => ⟨l⟩)

/-- Split a character list into maximal whitespace-free words
(Python `str.split()` with no argument; used for the `class` attribute). -/
def wordsAux : List Char → List Char → List String
  | [], cur => if cur = [] then [] else [⟨cur.reverse⟩]
  | c :: cs, cur =>
    if pyWs c then
      (if cur = [] then wordsAux cs [] else (⟨cur.reverse⟩ : String) :: wordsAux cs [])
    else
      wordsAux cs (c :: cur)

/-- The class tokens of a `class` attribute value. -/
def classTokens (s : String) : List String :=
  wordsAux s.data []

/-- A parsed HTML document node: an element with a tag name, attributes and
children, or a text node. -/
inductive Node where
  | elem (tag : String) (attrs : List (String × String)) (children : List Node)
  | text (s : String)
deriving Repr

/-- First-wins attribute lookup, as in an HTML attribute list. -/
def lookupAttr : List (String × String) → String → Option String
  | [], _ => none
  | (k, v) :: rest, key => if k = key then some v else lookupAttr rest key

/-- Attribute lookup on a node (`Tag.get`); text nodes carry no attributes. -/
def nodeAttr : Node → String → Option String
  | .elem _ attrs _, key => lookupAttr attrs key
  | .text _, _ => none

/-- The class tokens of a node. -/
def nodeClasses : Node → List String
  | .elem _ attrs _ => classTokens ((lookupAttr attrs "class").getD "")
  | .text _ => []

/-- A simple CSS selector: optional tag name, required classes, exact
attribute values, attribute-value prefixes and attribute presence.  These
are the only selector features the scraper uses. -/
structure SSel where
  tagName : Option String
  classNames : List String
  attrEqs : List (String × String)
  attrStarts : List (String × String)
  attrHas : List String
deriving Repr

/-- Selector with a single class requirement (CSS `.c`). -/
def selC (c : String) : SSel :=
  ⟨none, [c], [], [], []⟩

/-- Selector with a tag-name requirement (CSS `t`). -/
def selT (t : String) : SSel :=
  ⟨some t, [], [], [], []⟩

/-- Selector with tag-name and class requirements (CSS `t.c`). -/
def selTC (t c : String) : SSel :=
  ⟨some t, [c], [], [], []⟩

/-- Does a node satisfy a simple selector?  Text nodes never match. -/
def matchesS (s : SSel) : Node → Bool
  | .text _ => false
  | .elem t attrs cs =>
    (match s.tagName with | none => true | some tn => t = tn) &&
    s.classNames.all (fun c => (nodeClasses (.elem t attrs cs)).any (fun x => x = c)) &&
    s.attrEqs.all (fun kv => lookupAttr attrs kv.1 = some kv.2) &&
    s.attrStarts.all (fun kv =>
      match lookupAttr attrs kv.1 with
      | some w => isPrefixL kv.2.data w.data
      | none => false) &&
    s.attrHas.all (fun k => (lookupAttr attrs k).isSome)

mutual

/-- All strict descendants of a node paired with their ancestor stack
(nearest ancestor first), in document (pre-)order.  The starting stack is
pushed through so the root itself appears on its descendants' stacks. -/
def elemsAnc (anc : List Node) : Node → List (List Node × Node)
  | .text _ => []
  | .elem t a cs => elemsAncL (Node.elem t a cs :: anc) cs

/-- `elemsAnc` over a list of sibling subtrees. -/
def elemsAncL (anc : List Node) : List Node → List (List Node × Node)
  | [] => []
  | c :: cs => (anc, c) :: (elemsAnc anc c ++ elemsAncL anc cs)

end

/-- Does the (already reversed) tail of a descendant chain match somewhere
up the ancestor stack, in order? -/
def ancChain : List SSel → List Node → Bool
  | [], _ => true
  | _ :: _, [] => false
  | s :: rest, a :: as => (matchesS s a && ancChain rest as) || ancChain (s :: rest) as

/-- Does a descendant chain (outermost selector first, as written in CSS)
match element `e` with ancestor stack `anc`? -/
def chainHit (chain : List SSel) (anc : List Node) (e : Node) : Bool :=
  match chain.reverse with
  | [] => false
  | s :: rest => matchesS s e && ancChain rest anc

/-- BeautifulSoup `select`: all descendants matching any chain of the
comma-separated group, in document order. -/
def selectAll (grp : List (List SSel)) (root : Node) : List Node :=
  ((elemsAnc [] root).filter (fun p => grp.any (fun ch => chainHit ch p.1 p.2))).map
    (fun p => p.2)

/-- BeautifulSoup `select_one`: first match in document order, if any. -/
def select_one (grp : List (List SSel)) (root : Node) : Option Node :=
  (selectAll grp root).head?

mutual

/-- All text-node strings below a node, in document order. -/
def textsOf : Node → List String
  | .text s => [s]
  | .elem _ _ cs => textsOfL cs

/-- `textsOf` over a list of sibling subtrees. -/
def textsOfL : List Node → List String
  | [] => []
  | c :: cs => textsOf c ++ textsOfL cs

end

/-- BeautifulSoup `get_text(separator=sep, strip=True)`: each string is
stripped, empty strings are skipped, the rest are joined with `sep`. -/
def get_text (sep : String) (n : Node) : String :=
  String.intercalate sep (((textsOf n).map trimS).filter (fun s => s ≠ ""))

/-- BeautifulSoup `get_text(strip=True)` (empty separator). -/
def getTextStrip (n : Node) : String :=
  get_text "" n

mutual

/-- All strict descendants of a node, in document order. -/
def allNodes : Node → List Node
  | .text _ => []
  | .elem _ _ cs => allNodesL cs

/-- `allNodes` over a list of sibling subtrees. -/
def allNodesL : List Node → List Node
  | [] => []
  | c :: cs => c :: (allNodes c ++ allNodesL cs)

end

/-- BeautifulSoup `find_all(tagList)`: descendant elements whose tag is in
the list, in document order. -/
def find_all_tags (tags : List String) (n : Node) : List Node :=
  (allNodes n).filter (fun c =>
    match c with
    | .elem t _ _ => tags.any (fun x => x = t)
    | .text _ => false)

mutual

/-- Remove (`Tag.extract()`) every descendant satisfying `p`, keeping the
root (BeautifulSoup removal only ever matches descendants). -/
def pruneNode (p : Node → Bool) : Node → Node
  | .text s => .text s
  | .elem t a cs => .elem t a (pruneList p cs)

/-- `pruneNode` over a list of sibling subtrees. -/
def pruneList (p : Node → Bool) : List Node → List Node
  | [] => []
  | c :: cs =>
    if p c then pruneList p cs else pruneNode p c :: pruneList p cs

end

/-- Remove every descendant element satisfying `p` (the predicates used by
the scraper never match text nodes). -/
def removeElems (p : Node → Bool) (n : Node) : Node :=
  pruneNode (fun c =>
    match c with
    | .elem t a ks => p (.elem t a ks)
    | .text _ => false) n

/-- Remove every descendant text node whose string satisfies `p`. -/
def removeTexts (p : String → Bool) (n : Node) : Node :=
  pruneNode (fun c =>
    match c with
    | .elem _ _ _ => false
    | .text s => p s) n

/-!
The Detik scraper (`DetikScraper` in `newswatch/scrapers/detik.py`).

The network fetch and the HTML parser are outside the embedded code: an
article fetch is modelled as an `Option Node` (`none` is the "no
response" / empty-response signal), and the `parse_date` helper, which is
inherited from `BaseScraper` (not under `src/`), is an abstract parameter
`pd : String → Option Int` (`none` = unrecognized date text; `Int` with
its order stands for calendar dates).
-/

/-- `self.base_url` in `DetikScraper.__init__`. -/
def base_url : String :=
  "https://www.detik.com"

/-- `self.base_url.split("www.")[1]` — the `source` field of a record. -/
def source_id : String :=
  (splitOnS "www." base_url).getD 1 ""

/-- Search-result card selector `.list-content__item`. -/
def cardGroup : List (List SSel) :=
  [[selC "list-content__item"]]

/-- Title-anchor selector inside a card: `h3.media__title a`. -/
def titleLinkGroup : List (List SSel) :=
  [[selTC "h3" "media__title", selT "a"]]

/-- The denylist of substrings excluding non-article links. -/
def denylist : List String :=
  ["wolipop.detik.com", "/detiktv/", "/pop/", "20.detik.com", "/foto-", "-video"]

/-- `all(x not in href for x in [...])` — the link filter. -/
def denyOk (href : String) : Bool :=
  denylist.all (fun x => !(containsSub x href))

/-- The candidate URL a card contributes, before the denylist filter:
`article.select_one("h3.media__title a")` must find an anchor and
`title_link.get("href")` must be a non-empty string. -/
def card_candidate (card : Node) : Option String :=
  match select_one titleLinkGroup card with
  | some a =>
    (match nodeAttr a "href" with
     | some h => if h = "" then none else some h
     | none => none)
  | none => none

/-- Add to the accumulated set (`set.add`): membership-respecting insert. -/
def insert_new (h : String) (acc : List String) : List String :=
  if h ∈ acc then acc else acc ++ [h]

/-- The card loop of `parse_article_links`, accumulating `filtered_hrefs`. -/
def collect_hrefs : List Node → List String → List String
  | [], acc => acc
  | card :: rest, acc =>
    collect_hrefs rest
      (match card_candidate card with
       | some h => if denyOk h then insert_new h acc else acc
       | none => acc)

/-- `DetikScraper.parse_article_links`: `None` when no cards are found, the
collected link set, or `None` again when the collected set is empty. -/
def parse_article_links (doc : Node) : Option (List String) :=
  match selectAll cardGroup doc with
  | [] => none
  | a :: rest =>
    (match collect_hrefs (a :: rest) [] with
     | [] => none
     | h :: hs => some (h :: hs))

/-- Breadcrumb selector group `.page__breadcrumb a, .breadcrumb a`. -/
def breadcrumbGroup : List (List SSel) :=
  [[selC "page__breadcrumb", selT "a"], [selC "breadcrumb", selT "a"]]

/-- Title fallback selectors, in order: `.detail__title`, `h1.detail__title`, `h1`. -/
def titleSels : List (List (List SSel)) :=
  [[[selC "detail__title"]], [[selTC "h1" "detail__title"]], [[selT "h1"]]]

/-- Author selector group `.detail__author, .author`. -/
def authorGroup : List (List SSel) :=
  [[selC "detail__author"], [selC "author"]]

/-- Date fallback selectors, in order: `.detail__date`, `.date`, `time`. -/
def dateSels : List (List (List SSel)) :=
  [[[selC "detail__date"]], [[selC "date"]], [[selT "time"]]]

/-- Content-container fallback selectors, in order. -/
def contentSels : List (List (List SSel)) :=
  [[[selC "detail__body-text"]], [[selC "itp_bodycontent"]], [[selC "detail-content"]]]

/-- The `for selector in [...]: elem = soup.select_one(selector); if elem:
... break` pattern: the first selector that finds an element wins
(a found tag is always truthy in BeautifulSoup, even with empty text). -/
def firstMatchElem : List (List (List SSel)) → Node → Option Node
  | [], _ => none
  | g :: gs, doc =>
    match select_one g doc with
    | some e => some e
    | none => firstMatchElem gs doc

/-- Text of the first selector hit (`get_text(strip=True)` of the found
element, which may be empty). -/
def firstMatchText (gs : List (List (List SSel))) (doc : Node) : Option String :=
  (firstMatchElem gs doc).map getTextStrip

/-- The `unwanted_selectors` removed from the content container. -/
def unwantedSels : List SSel :=
  [selT "script", selT "style", selT "iframe", selT "ins",
   selC "noncontent", selC "linksisip",
   selC "parallaxindetail", selC "staticdetail_container",
   selC "aevp", selC "pip-vid",
   ⟨none, [], [("data-type", "_mgwidget")], [], []⟩,
   selC "eyeo", selT "template",
   selC "detail__body-tag",
   selTC "table" "linksisip",
   ⟨some "div", [], [], [("id", "div-gpt-ad")], []⟩,
   ⟨some "div", [], [], [("id", "mgw")], []⟩,
   ⟨some "div", [], [], [], ["data-tf-live"]⟩]

/-- Class names whose presence removes an element in the second pass. -/
def noiseClasses : List String :=
  ["clearfix", "ads-", "mg_", "mc", "para_caption"]

/-- The content-sanitization pipeline: remove elements matching any
unwanted selector, then elements carrying a noise class, then text nodes
containing a literal comment opener. -/
def sanitize (c : Node) : Node :=
  removeTexts (fun s => containsSub "<!--" s)
    (removeElems (fun e => (nodeClasses e).any (fun cl => noiseClasses.any (fun x => x = cl)))
      (removeElems (fun e => unwantedSels.any (fun s => matchesS s e)) c))

/-- Boilerplate strings dropped from collected paragraphs. -/
def boilerplate : List String :=
  ["ADVERTISEMENT", "SCROLL TO CONTINUE WITH CONTENT"]

/-- The collected paragraph texts: `find_all(["p", "strong"])` over the
sanitized container, stripped, dropping empties and boilerplate. -/
def paragraph_texts (c : Node) : List String :=
  ((find_all_tags ["p", "strong"] (sanitize c)).map getTextStrip).filter
    (fun t => t ≠ "" && boilerplate.all (fun b => b ≠ t))

/-- The fallback when no paragraph survives: `get_text(separator="\n",
strip=True)`, split on newlines, strip each line, drop blanks, join with a
blank-line separator. -/
def fallback_text (c : Node) : String :=
  String.intercalate "\n\n"
    (((splitOnS "\n" (get_text "\n" (sanitize c))).map trimS).filter (fun l => l ≠ ""))

/-- The body text produced from a matched content container. -/
def contentFromContainer (c : Node) : String :=
  match paragraph_texts c with
  | [] => fallback_text c
  | p :: ps => String.intercalate "\n\n" (p :: ps)

/-- The whole content step of `get_article`: first matching container, then
the sanitization/collection pipeline; `none` when no selector matches. -/
def extract_content (doc : Node) : Option String :=
  (firstMatchElem contentSels doc).map contentFromContainer

/-- The title step of `get_article`. -/
def the_title (doc : Node) : Option String :=
  firstMatchText titleSels doc

/-- The date-text step of `get_article`. -/
def the_date_str (doc : Node) : Option String :=
  firstMatchText dateSels doc

/-- The author step: selector text when found (possibly empty), else the
"Unknown" sentinel. -/
def the_author (doc : Node) : String :=
  match select_one authorGroup doc with
  | some e => getTextStrip e
  | none => "Unknown"

/-- The category step: breadcrumb text, with `category or "Unknown"`
turning both a missing breadcrumb and empty text into "Unknown". -/
def the_category (doc : Node) : String :=
  match select_one breadcrumbGroup doc with
  | some e => if getTextStrip e = "" then "Unknown" else getTextStrip e
  | none => "Unknown"

/-- An Article Record as enqueued by `get_article`. -/
structure Article where
  title : String
  publish_date : Int
  author : String
  content : String
  keyword : String
  category : String
  source : String
  link : String
deriving Repr, DecidableEq

/-- Outcome of one `get_article` dispatch.  `tooOld` is the branch that
sets `continue_scraping = False` and returns without enqueueing;
`errorCaught` is the `except` branch (exception logged, not re-raised). -/
inductive GAResult where
  | noResponse
  | dropped (msg : String)
  | tooOld
  | errorCaught (msg : String)
  | emitted (item : Article)
deriving Repr, DecidableEq

/-- The record built at the end of a successful extraction. -/
def build_item (doc : Node) (kw link : String) (d : Int) : Article :=
  { title := (the_title doc).getD ""
    publish_date := d
    author := the_author doc
    content := (extract_content doc).getD ""
    keyword := kw
    category := the_category doc
    source := source_id
    link := link }

/-- `if self.start_date and publish_date < self.start_date`. -/
def tooOldCheck (sd : Option Int) (d : Int) : Bool :=
  match sd with
  | some b => decide (d < b)
  | none => false

/-- The body of `get_article`'s `try` block, after the page parsed into
`doc`: the guard chain on title, date text, content, date parsing and the
start-date bound, ending in an enqueued record.  `Option.getD ""` encodes
Python falsiness of an optional string (`None` or `""`). -/
def article_body (pd : String → Option Int) (sd : Option Int) (kw link : String)
    (doc : Node) : GAResult :=
  if (the_title doc).getD "" = "" then .dropped "no title"
  else if (the_date_str doc).getD "" = "" then .dropped "no date"
  else if (extract_content doc).getD "" = "" then .dropped "no content"
  else
    match pd ((the_date_str doc).getD "") with
    | none => .dropped "date parse error"
    | some d =>
      if tooOldCheck sd d then .tooOld
      else .emitted (build_item doc kw link d)

/-- The `try` block itself.  Every operation of the translated body is
total, so the computation always completes without an exception. -/
def get_article_try (pd : String → Option Int) (sd : Option Int) (kw link : String)
    (doc : Node) : Except String GAResult :=
  Except.ok (article_body pd sd kw link doc)

/-- `DetikScraper.get_article`: the no-response guard, then the `try`
block under the catch-all `except` handler. -/
def get_article (pd : String → Option Int) (sd : Option Int) (kw link : String)
    (resp : Option Node) : GAResult :=
  match resp with
  | none => .noResponse
  | some doc =>
    match get_article_try pd sd kw link doc with
    | .ok r => r
    | .error e => .errorCaught e

/-- The value of `self.continue_scraping` after one dispatch (starting
from `True`): only the too-old branch flips it. -/
def continue_scraping_after : GAResult → Bool
  | .tooOld => false
  | _ => true

/-- Is the outcome an uncaught-error escape?  (It never is; the `except`
handler converts exceptions into a logged `errorCaught`.) -/
def isErrorResult : GAResult → Bool
  | .errorCaught _ => true
  | _ => false

/-!
Concrete example documents used as counterexamples and witnesses.
-/

/-- An article page whose title, date text and content all resolve. -/
def exDocOld : Node :=
  .elem "html" [] [
    .elem "div" [("class", "detail__title")] [.text "Judul Berita"],
    .elem "div" [("class", "detail__date")] [.text "Senin, 01 Jan 2024 10:00 WIB"],
    .elem "div" [("class", "detail__body-text")] [
      .elem "p" [] [.text "Isi berita pertama."],
      .elem "p" [] [.text "ADVERTISEMENT"],
      .elem "p" [] [.text "Isi kedua."]]]

/-- A richer article page: breadcrumb category, `h1` fallback title,
author, `time` date, content with a strong lead, boilerplate and a
noise-class block. -/
def exDocFull : Node :=
  .elem "html" [] [
    .elem "div" [("class", "page__breadcrumb")] [.elem "a" [] [.text "News"]],
    .elem "h1" [] [.text "Harga Pangan Naik"],
    .elem "div" [("class", "detail__author")] [.text "Budi"],
    .elem "time" [] [.text "Selasa, 02 Jan 2024"],
    .elem "div" [("class", "itp_bodycontent")] [
      .elem "strong" [] [.text "Jakarta -"],
      .elem "p" [] [.text "Paragraf pertama."],
      .elem "p" [] [.text "SCROLL TO CONTINUE WITH CONTENT"],
      .elem "div" [("class", "clearfix")] [.elem "p" [] [.text "noise"]]]]

/-- A search-result card with one title anchor. -/
def mkCard (href t : String) : Node :=
  .elem "article" [("class", "list-content__item")] [
    .elem "h3" [("class", "media__title")] [
      .elem "a" [("href", href)] [.text t]]]

/-- A results page with three cards, one of them a video-suffixed link. -/
def exSearchDoc : Node :=
  .elem "html" [] [
    mkCard "https://news.detik.com/a1" "A1",
    mkCard "https://news.detik.com/a2" "A2",
    mkCard "https://news.detik.com/a3-video" "A3"]

/-- A results page whose single card is filtered out by the denylist. -/
def exFilteredDoc : Node :=
  .elem "html" [] [mkCard "https://news.detik.com/b-video" "B"]

/-- A results page with no article cards at all. -/
def exNoCardsDoc : Node :=
  .elem "html" [] [.elem "div" [] [.text "kosong"]]

/-- An article page whose first title selector matches an element with
whitespace-only text while a later selector would yield a real title. -/
def exTitleEmptyDoc : Node :=
  .elem "html" [] [
    .elem "div" [("class", "detail__title")] [.text "  "],
    .elem "h1" [] [.text "Judul Asli"]]

/-- A content container with boilerplate between real paragraphs. -/
def exContainer : Node :=
  .elem "div" [("class", "detail__body-text")] [
    .elem "p" [] [.text " Satu. "],
    .elem "p" [] [.text "ADVERTISEMENT"],
    .elem "strong" [] [.text "Dua."]]

/-!
The Fetcher's per-source admission gate.
-/

/-- Modelled from the spec: the state of one source's article-fetch
dispatch, counting in-flight fetches and links not yet dispatched.  The
Fetcher and its concurrency gate live in `BaseScraper`
(`newswatch/scrapers/basescraper.py`), which is not under `src/`; the
spec describes it as an admission gate with a configurable limit
(default 12) where callers suspend until a slot frees. -/
structure GateState where
  inflight : Nat
  pendingN : Nat
deriving Repr, DecidableEq

/-- Modelled from the spec: one scheduler step of the admission gate — a
pending fetch is admitted only while the in-flight count is below the
limit, or an in-flight fetch completes and frees its slot. -/
inductive GateStep (limit : Nat) : GateState → GateState → Prop
  | acquire (s : GateState) :
      s.inflight < limit → 0 < s.pendingN →
      GateStep limit s ⟨s.inflight + 1, s.pendingN - 1⟩
  | complete (s : GateState) :
      0 < s.inflight →
      GateStep limit s ⟨s.inflight - 1, s.pendingN⟩

/-- Modelled from the spec: the states reachable from an initial gate
state by scheduler steps. -/
inductive GateReach (limit : Nat) (init : GateState) : GateState → Prop
  | refl : GateReach limit init init
  | step {s t : GateState} :
      GateReach limit init s → GateStep limit s t → GateReach limit init t

/-!
Helper lemmas about the link-collection loop.
-/

/-- Membership in the set-like insert. -/
theorem mem_insert_new (x h : String) (acc : List String) :
    x ∈ insert_new h acc ↔ x = h ∨ x ∈ acc := by
  unfold insert_new
  split_ifs with hmem
  · constructor
    · exact fun hx => Or.inr hx
    · rintro (rfl | hx)
      · exact hmem
      · exact hx
  · simp [List.mem_append, or_comm]

/-- Membership in the collected link set of `parse_article_links`: exactly
the accumulator plus every denylist-passing candidate of some card. -/
theorem mem_collect_hrefs (cards : List Node) :
    ∀ (acc : List String) (x : String),
      x ∈ collect_hrefs cards acc ↔
        x ∈ acc ∨ ∃ c, c ∈ cards ∧ card_candidate c = some x ∧ denyOk x = true := by
  induction cards with
  | nil =>
    intro acc x
    simp [collect_hrefs]
  | cons card rest ih =>
    intro acc x
    simp only [collect_hrefs]
    rw [ih]
    split
    case h_2 hc =>
      constructor
      · rintro (hx | ⟨c, hcm, hcand, hd⟩)
        · exact Or.inl hx
        · exact Or.inr ⟨c, List.mem_cons_of_mem _ hcm, hcand, hd⟩
      · rintro (hx | ⟨c, hcm, hcand, hd⟩)
        · exact Or.inl hx
        · rcases List.mem_cons.mp hcm with rfl | hcm2
          · rw [hc] at hcand; cases hcand
          · exact Or.inr ⟨c, hcm2, hcand, hd⟩
    case h_1 h hc =>
      split_ifs with hdeny
      · rw [mem_insert_new]
        constructor
        · rintro ((rfl | hx) | ⟨c, hcm, hcand, hd⟩)
          · exact Or.inr ⟨card, List.mem_cons_self _ _, hc, hdeny⟩
          · exact Or.inl hx
          · exact Or.inr ⟨c, List.mem_cons_of_mem _ hcm, hcand, hd⟩
        · rintro (hx | ⟨c, hcm, hcand, hd⟩)
          · exact Or.inl (Or.inr hx)
          · rcases List.mem_cons.mp hcm with rfl | hcm2
            · rw [hc] at hcand
              exact Or.inl (Or.inl (Option.some.inj hcand).symm)
            · exact Or.inr ⟨c, hcm2, hcand, hd⟩
      · constructor
        · rintro (hx | ⟨c, hcm, hcand, hd⟩)
          · exact Or.inl hx
          · exact Or.inr ⟨c, List.mem_cons_of_mem _ hcm, hcand, hd⟩
        · rintro (hx | ⟨c, hcm, hcand, hd⟩)
          · exact Or.inl hx
          · rcases List.mem_cons.mp hcm with rfl | hcm2
            · rw [hc] at hcand
              cases Option.some.inj hcand
              exact absurd hd hdeny
            · exact Or.inr ⟨c, hcm2, hcand, hd⟩

/-!
The claim theorems.
-/

/-- C3 (counterexample): `parse_article_links` also returns `none` when
cards ARE present but every candidate link is removed by the denylist
filter, so `none` does not single out the zero-cards case: on a page with
one card whose link is video-suffixed, the function returns `none` even
though one card was found. -/
theorem parse_links_none_despite_cards :
    parse_article_links exFilteredDoc = none
    ∧ (selectAll cardGroup exFilteredDoc).length = 1 :=
  ⟨rfl, rfl⟩

/-- C3 (amended): `parse_article_links` returns `none` exactly when zero
article cards are found OR when cards are present but the collected link
set is empty; the `none` return therefore does not distinguish "end of
results" from "results present but all filtered out". -/
theorem parse_links_none_iff :
    ∀ doc : Node,
      parse_article_links doc = none ↔
        (selectAll cardGroup doc = []
          ∨ collect_hrefs (selectAll cardGroup doc) [] = []) := by
  intro doc
  unfold parse_article_links
  cases hsel : selectAll cardGroup doc with
  | nil => simp
  | cons a rest =>
    cases hcol : collect_hrefs (a :: rest) [] with
    | nil => simp [hcol]
    | cons h hs => simp [hcol]

/-- C3 witness: the amended theorem applied to a page with no cards. -/
theorem parse_links_none_iff_witness :
    selectAll cardGroup exNoCardsDoc = []
    ∨ collect_hrefs (selectAll cardGroup exNoCardsDoc) [] = [] :=
  (parse_links_none_iff exNoCardsDoc).mp rfl

/-- C5 (counterexample): the selector loops break on the first selector
that finds an element, even when that element's text is empty: on a page
whose `.detail__title` element holds only whitespace while a later `h1`
holds a real title, the extracted title is the empty string and the
article is dropped, instead of moving on to the `h1` selector. -/
theorem first_selector_empty_text_accepted :
    the_title exTitleEmptyDoc = some ""
    ∧ select_one [[selT "h1"]] exTitleEmptyDoc
        = some (Node.elem "h1" [] [Node.text "Judul Asli"])
    ∧ getTextStrip (Node.elem "h1" [] [Node.text "Judul Asli"]) = "Judul Asli"
    ∧ get_article (fun _ => some 0) none "kw" "lnk" (some exTitleEmptyDoc)
        = .dropped "no title" :=
  ⟨rfl, rfl, rfl, rfl⟩

/-- C5 (amended): for the title and date-text fields the extractor uses
the first selector in its ordered list that finds an element, taking that
element's stripped text even when it is empty; an empty text does not
cause later selectors to be tried (the article is instead dropped by the
subsequent emptiness check). -/
theorem first_selector_hit_wins :
    ∀ (doc e : Node),
      (select_one [[selC "detail__title"]] doc = some e →
        the_title doc = some (getTextStrip e))
      ∧ (select_one [[selC "detail__date"]] doc = some e →
        the_date_str doc = some (getTextStrip e)) := by
  intro doc e
  constructor
  · intro h
    simp [the_title, firstMatchText, titleSels, firstMatchElem, h]
  · intro h
    simp [the_date_str, firstMatchText, dateSels, firstMatchElem, h]

/-- C5 witness: the amended theorem applied to the whitespace-title page. -/
theorem first_selector_hit_wins_witness :
    the_title exTitleEmptyDoc
      = some (getTextStrip
          (Node.elem "div" [("class", "detail__title")] [Node.text "  "])) :=
  (first_selector_hit_wins exTitleEmptyDoc
    (Node.elem "div" [("class", "detail__title")] [Node.text "  "])).1 rfl

/-- C7: extraction is a deterministic pure function of the page tree and
configuration: two runs on the same input are identical, and any two
emitted records from the same input are equal in every field. -/
theorem extraction_deterministic :
    ∀ (pd : String → Option Int) (sd : Option Int) (kw link : String)
      (resp : Option Node),
      get_article pd sd kw link resp = get_article pd sd kw link resp
      ∧ (∀ item item2 : Article,
          get_article pd sd kw link resp = .emitted item →
          get_article pd sd kw link resp = .emitted item2 → item = item2) := by
  intro pd sd kw link resp
  refine ⟨rfl, fun item item2 h1 h2 => ?_⟩
  rw [h1] at h2
  exact GAResult.emitted.inj h2

/-- C7 witness: the two-run record equality at a concrete page. -/
theorem extraction_deterministic_witness :
    ({ title := "Judul Berita", publish_date := 7, author := "Unknown",
       content := "Isi berita pertama.\n\nIsi kedua.", keyword := "kw",
       category := "Unknown", source := "detik.com", link := "lnk" } : Article)
      = build_item exDocOld "kw" "lnk" 7 :=
  (extraction_deterministic (fun _ => some 7) none "kw" "lnk" (some exDocOld)).2
    _ _ rfl rfl

/-- C8: in the admission-gate model of the Fetcher, no reachable state
ever has more than the configured limit of fetches in flight; in
particular with limit 2 and five pending links at most 2 are ever
concurrent. -/
theorem gate_bounds_inflight :
    (∀ (limit links : Nat) (s : GateState),
        GateReach limit ⟨0, links⟩ s → s.inflight ≤ limit)
    ∧ (∀ s : GateState, GateReach 2 ⟨0, 5⟩ s → s.inflight ≤ 2) := by
  have main : ∀ (limit links : Nat) (s : GateState),
      GateReach limit ⟨0, links⟩ s → s.inflight ≤ limit := by
    intro limit links s h
    induction h with
    | refl => exact Nat.zero_le limit
    | step hr hs ih =>
      cases hs with
      | acquire hlt hp => exact hlt
      | complete hp => exact Nat.le_trans (Nat.sub_le _ _) ih
  exact ⟨main, fun s h => main 2 5 s h⟩

/-- C8 witness: the bound applied to the state reached after admitting
one of five pending fetches under limit 2. -/
theorem gate_bounds_inflight_witness : (⟨1, 4⟩ : GateState).inflight ≤ 2 :=
  gate_bounds_inflight.2 ⟨1, 4⟩
    (GateReach.step GateReach.refl
      (GateStep.acquire ⟨0, 5⟩ (by decide) (by decide)))

/-- C4: a candidate URL taken from some card's title anchor ends up in the
returned link set exactly when it contains none of the denylist
substrings; and on the three-card page with one video-suffixed link,
exactly the two passing links are returned. -/
theorem link_filter_iff :
    (∀ (doc : Node) (h : String),
        (∃ c, c ∈ selectAll cardGroup doc ∧ card_candidate c = some h) →
        (denyOk h = true ↔ ∃ s, parse_article_links doc = some s ∧ h ∈ s))
    ∧ parse_article_links exSearchDoc =
        some ["https://news.detik.com/a1", "https://news.detik.com/a2"] := by
  constructor
  · rintro doc h ⟨c, hcmem, hcand⟩
    constructor
    · intro hdeny
      have hm : h ∈ collect_hrefs (selectAll cardGroup doc) [] := by
        rw [mem_collect_hrefs]
        exact Or.inr ⟨c, hcmem, hcand, hdeny⟩
      cases hsel : selectAll cardGroup doc with
      | nil => rw [hsel] at hcmem; cases hcmem
      | cons a rest =>
        rw [hsel] at hm
        cases hcol : collect_hrefs (a :: rest) [] with
        | nil => rw [hcol] at hm; cases hm
        | cons x xs =>
          refine ⟨x :: xs, ?_, ?_⟩
          · simp [parse_article_links, hsel, hcol]
          · rw [hcol] at hm; exact hm
    · rintro ⟨s, hps, hmem⟩
      unfold parse_article_links at hps
      cases hsel : selectAll cardGroup doc with
      | nil => rw [hsel] at hps; cases hps
      | cons a rest =>
        rw [hsel] at hps
        cases hcol : collect_hrefs (a :: rest) [] with
        | nil => simp [hcol] at hps
        | cons x xs =>
          simp only [hcol] at hps
          cases hps
          have hm : h ∈ collect_hrefs (selectAll cardGroup doc) [] := by
            rw [hsel, hcol]; exact hmem
          rw [mem_collect_hrefs] at hm
          rcases hm with hfalse | ⟨c2, _, _, hdeny⟩
          · cases hfalse
          · exact hdeny
  · rfl

/-- C4 witness: the iff applied to the first card's URL on the
three-card page. -/
theorem link_filter_iff_witness :
    ∃ s, parse_article_links exSearchDoc = some s
      ∧ "https://news.detik.com/a1" ∈ s :=
  (link_filter_iff.1 exSearchDoc "https://news.detik.com/a1"
    ⟨mkCard "https://news.detik.com/a1" "A1",
      by
        rw [show selectAll cardGroup exSearchDoc =
          [mkCard "https://news.detik.com/a1" "A1",
           mkCard "https://news.detik.com/a2" "A2",
           mkCard "https://news.detik.com/a3-video" "A3"] from rfl]
        exact List.mem_cons_self _ _,
      rfl⟩).mp rfl

/-- C1 (counterexample): an article page whose title, date text and
content all resolve and whose parsed date is below the bound is NOT
emitted — `get_article` returns the flag-flipping `tooOld` outcome — even
though the very same page is emitted when no bound is configured. -/
theorem too_old_article_dropped_cex :
    get_article (fun _ => some 0) (some 1) "kw" "lnk" (some exDocOld) = .tooOld
    ∧ get_article (fun _ => some 0) none "kw" "lnk" (some exDocOld)
        = .emitted (build_item exDocOld "kw" "lnk" 0) :=
  ⟨rfl, rfl⟩

/-- C1 (amended): when a fully-resolving article's parsed date is earlier
than the configured bound, `get_article` sets `continue_scraping` to
false and returns WITHOUT emitting the record: the too-old article itself
is dropped; only further pages/dispatches (and work already underway) are
governed by the flag. -/
theorem too_old_sets_flag_and_drops :
    ∀ (pd : String → Option Int) (b : Int) (kw link : String) (doc : Node)
      (d : Int),
      (the_title doc).getD "" ≠ "" →
      (the_date_str doc).getD "" ≠ "" →
      (extract_content doc).getD "" ≠ "" →
      pd ((the_date_str doc).getD "") = some d →
      d < b →
      get_article pd (some b) kw link (some doc) = .tooOld
      ∧ continue_scraping_after (get_article pd (some b) kw link (some doc))
          = false
      ∧ ∀ item : Article,
          get_article pd (some b) kw link (some doc) ≠ .emitted item := by
  intro pd b kw link doc d h1 h2 h3 hpd hlt
  have hmain : get_article pd (some b) kw link (some doc) = .tooOld := by
    show article_body pd (some b) kw link doc = .tooOld
    unfold article_body
    rw [if_neg h1, if_neg h2, if_neg h3, hpd]
    simp [tooOldCheck, hlt]
  refine ⟨hmain, by rw [hmain]; rfl, fun item h => ?_⟩
  rw [hmain] at h
  simp at h

/-- C1 witness: the amended theorem applied to the concrete too-old page. -/
theorem too_old_sets_flag_and_drops_witness :
    get_article (fun _ => some 0) (some 1) "kw" "lnk" (some exDocOld) = .tooOld
    ∧ continue_scraping_after
        (get_article (fun _ => some 0) (some 1) "kw" "lnk" (some exDocOld))
        = false
    ∧ ∀ item : Article,
        get_article (fun _ => some 0) (some 1) "kw" "lnk" (some exDocOld)
          ≠ .emitted item :=
  too_old_sets_flag_and_drops (fun _ => some 0) 1 "kw" "lnk" exDocOld 0
    (by decide) (by decide) (by decide) rfl (by decide)

/-- C2: a record is emitted exactly when title, date text and content all
resolve non-empty, the date text parses, and the start-date bound does
not fire — and whenever any of title, date text or content is missing or
empty, or the date text fails to parse, the article is dropped with a
logged message (a `dropped` outcome, never an exception). -/
theorem emit_requires_all_fields :
    ∀ (pd : String → Option Int) (sd : Option Int) (kw link : String)
      (doc : Node) (item : Article),
      (get_article pd sd kw link (some doc) = .emitted item ↔
        ((the_title doc).getD "" ≠ "" ∧ (the_date_str doc).getD "" ≠ "" ∧
         (extract_content doc).getD "" ≠ "" ∧
         ∃ d, pd ((the_date_str doc).getD "") = some d ∧
           tooOldCheck sd d = false ∧ item = build_item doc kw link d))
      ∧ ((the_title doc).getD "" = "" ∨ (the_date_str doc).getD "" = "" ∨
          (extract_content doc).getD "" = "" ∨
          pd ((the_date_str doc).getD "") = none →
         ∃ msg, get_article pd sd kw link (some doc) = .dropped msg) := by
  intro pd sd kw link doc item
  constructor
  · constructor
    · intro h
      rw [show get_article pd sd kw link (some doc)
            = article_body pd sd kw link doc from rfl] at h
      unfold article_body at h
      split_ifs at h with h1 h2 h3
      cases hpd : pd ((the_date_str doc).getD "") with
      | none => rw [hpd] at h; simp at h
      | some d =>
        simp only [hpd] at h
        cases htoo : tooOldCheck sd d with
        | false =>
          rw [htoo] at h
          simp only [Bool.false_eq_true, if_false] at h
          refine ⟨h1, h2, h3, d, rfl, htoo, ?_⟩
          exact (GAResult.emitted.inj h).symm
        | true =>
          rw [htoo] at h
          simp at h
    · rintro ⟨h1, h2, h3, d, hpd, htoo, rfl⟩
      show article_body pd sd kw link doc = _
      unfold article_body
      rw [if_neg h1, if_neg h2, if_neg h3, hpd]
      simp [htoo]
  · intro hcase
    show ∃ msg, article_body pd sd kw link doc = .dropped msg
    unfold article_body
    split_ifs with h1 h2 h3
    · exact ⟨"no title", rfl⟩
    · exact ⟨"no date", rfl⟩
    · exact ⟨"no content", rfl⟩
    · rcases hcase with hc | hc | hc | hc
      · exact absurd hc h1
      · exact absurd hc h2
      · exact absurd hc h3
      · rw [hc]
        exact ⟨"date parse error", rfl⟩

/-- C2 witness: the characterization applied to a fully-resolving page
under a non-firing bound. -/
theorem emit_requires_all_fields_witness :
    get_article (fun _ => some 3) (some 2) "pangan" "lnk2" (some exDocFull)
      = .emitted (build_item exDocFull "pangan" "lnk2" 3) :=
  ((emit_requires_all_fields (fun _ => some 3) (some 2) "pangan" "lnk2"
      exDocFull (build_item exDocFull "pangan" "lnk2" 3)).1).mpr
    ⟨by decide, by decide, by decide, 3, rfl, rfl, rfl⟩

/-- C6: collected paragraphs never contain the empty string or the
boilerplate strings; when paragraphs survive, the body is their
blank-line join; when none survive, the body falls back to the remaining
container text split on newlines with blanks dropped; and an article
whose extracted content is empty is never emitted. -/
theorem body_pipeline_properties :
    (∀ (c : Node) (t : String), t ∈ paragraph_texts c →
        t ≠ "" ∧ t ≠ "ADVERTISEMENT" ∧ t ≠ "SCROLL TO CONTINUE WITH CONTENT")
    ∧ (∀ (c : Node) (p : String) (ps : List String),
        paragraph_texts c = p :: ps →
        contentFromContainer c = String.intercalate "\n\n" (p :: ps))
    ∧ (∀ c : Node, paragraph_texts c = [] →
        contentFromContainer c = fallback_text c)
    ∧ (∀ (pd : String → Option Int) (sd : Option Int) (kw link : String)
        (doc : Node) (item : Article),
        (extract_content doc).getD "" = "" →
        get_article pd sd kw link (some doc) ≠ .emitted item) := by
  refine ⟨?_, ?_, ?_, ?_⟩
  · intro c t ht
    unfold paragraph_texts at ht
    rw [List.mem_filter] at ht
    have hb := ht.2
    simp only [boilerplate, List.all_cons, List.all_nil, Bool.and_true,
      Bool.and_eq_true, decide_eq_true_eq] at hb
    exact ⟨hb.1, fun he => hb.2.1 he.symm, fun he => hb.2.2 he.symm⟩
  · intro c p ps hc
    simp [contentFromContainer, hc]
  · intro c hc
    simp [contentFromContainer, hc]
  · intro pd sd kw link doc item hempty h
    rw [show get_article pd sd kw link (some doc)
          = article_body pd sd kw link doc from rfl] at h
    unfold article_body at h
    split_ifs at h

/-- C6 witness: the paragraph-join case applied to a container with
boilerplate between two real paragraphs. -/
theorem body_pipeline_properties_witness :
    contentFromContainer exContainer
      = String.intercalate "\n\n" ("Satu." :: ["Dua."]) :=
  body_pipeline_properties.2.1 exContainer "Satu." ["Dua."] rfl

/-- C9: the translated `try` body always completes normally and the
handler structure of `get_article` means no dispatch ever escapes with an
uncaught error: every outcome is a normal `GAResult`, never the
`errorCaught` escape, for every input. -/
theorem no_exception_escapes :
    ∀ (pd : String → Option Int) (sd : Option Int) (kw link : String),
      (∀ doc : Node,
        get_article_try pd sd kw link doc
          = Except.ok (article_body pd sd kw link doc))
      ∧ (∀ resp : Option Node,
        isErrorResult (get_article pd sd kw link resp) = false) := by
  intro pd sd kw link
  refine ⟨fun doc => rfl, fun resp => ?_⟩
  cases resp with
  | none => rfl
  | some doc =>
    show isErrorResult (article_body pd sd kw link doc) = false
    unfold article_body
    split_ifs
    · rfl
    · rfl
    · rfl
    · cases pd ((the_date_str doc).getD "") with
      | none => rfl
      | some d =>
        cases htoo : tooOldCheck sd d with
        | false => simp [htoo, isErrorResult]
        | true => simp [htoo, isErrorResult]

/-- C10: with no configured start date the bound check is skipped —
`continue_scraping` survives every dispatch, and every page whose title,
date text and content resolve is emitted regardless of how old its parsed
date is. -/
theorem no_bound_no_stop :
    ∀ (pd : String → Option Int) (kw link : String),
      (∀ resp : Option Node,
        continue_scraping_after (get_article pd none kw link resp) = true)
      ∧ (∀ (doc : Node) (d : Int),
          (the_title doc).getD "" ≠ "" →
          (the_date_str doc).getD "" ≠ "" →
          (extract_content doc).getD "" ≠ "" →
          pd ((the_date_str doc).getD "") = some d →
          get_article pd none kw link (some doc)
            = .emitted (build_item doc kw link d)) := by
  intro pd kw link
  constructor
  · intro resp
    cases resp with
    | none => rfl
    | some doc =>
      show continue_scraping_after (article_body pd none kw link doc) = true
      unfold article_body
      split_ifs
      · rfl
      · rfl
      · rfl
      · cases pd ((the_date_str doc).getD "") with
        | none => rfl
        | some d => simp [tooOldCheck, continue_scraping_after]
  · intro doc d h1 h2 h3 hpd
    show article_body pd none kw link doc = .emitted (build_item doc kw link d)
    unfold article_body
    rw [if_neg h1, if_neg h2, if_neg h3, hpd]
    simp [tooOldCheck]

/-- C10 witness: an arbitrarily old parsed date is still emitted when no
bound is configured. -/
theorem no_bound_no_stop_witness :
    get_article (fun _ => some (-5000)) none "pangan" "lnk2" (some exDocFull)
      = .emitted (build_item exDocFull "pangan" "lnk2" (-5000)) :=
  (no_bound_no_stop (fun _ => some (-5000)) "pangan" "lnk2").2 exDocFull (-5000)
    (by decide) (by decide) (by decide) rfl
